import Mathlib

/-
  Verification of the Usage Anomaly Detection & Query Safety Core of the
  mcp-snowflake-server repository.

  The embedding models:
  * `src/tools/generic.py` — the query safety gate (`is_read_only_query`,
    `add_limit_if_missing`, `execute_account_usage_query`) over SQL text
    modelled as `List Char`;
  * `src/tools/security.py` (`detect_unusual_access_patterns`) — the SQL
    anomaly-detection query embedded in that function, translated CTE by CTE
    under Snowflake SQL semantics (NULL-aware aggregates and comparisons),
    together with the pandas post-processing that flags high-risk users;
  * `src/utils/snowflake_connection.py` — the shape of the call made to the
    execution collaborator (`SnowflakeConnection.execute_query`).

  Python strings are modelled as `List Char`; all inputs of interest are
  ASCII, for which `Char.toUpper` agrees with Python's `str.upper`.
-/

namespace SnowflakeMCP

/-! ### Query Safety Gate (src/tools/generic.py) -/

/-- State machine for Python's `re.sub(r'--.*', '', query)`: from each `--`
on, characters are dropped up to (but not including) the next newline
(`.` does not match `\n`).  The boolean state is "currently inside a
comment". -/
def stripCommentsAux : Bool → List Char → List Char
  | _, [] => []
  | true, '\n' :: rest => '\n' :: stripCommentsAux false rest
  | true, _ :: rest => stripCommentsAux true rest
  | false, '-' :: '-' :: rest => stripCommentsAux true rest
  | false, c :: rest => c :: stripCommentsAux false rest

/-- `re.sub(r'--.*', '', query)` from `is_read_only_query`. -/
def stripComments (l : List Char) : List Char := stripCommentsAux false l

/-- The whitespace set of Python's `str.strip()` / `str.rstrip()` (ASCII part). -/
def pyWhitespace (c : Char) : Bool :=
  c = ' ' || c = '\t' || c = '\n' || c = '\r' || c = '\x0b' || c = '\x0c'

/-- Python `str.rstrip` with an explicit character predicate. -/
def rstripIf (p : Char → Bool) (l : List Char) : List Char :=
  (l.reverse.dropWhile p).reverse

/-- Python `str.strip()` (no argument: strips whitespace at both ends). -/
def stripWs (l : List Char) : List Char :=
  rstripIf pyWhitespace (l.dropWhile pyWhitespace)

/-- `needle` is a prefix of `hay` (character-by-character comparison),
as used by Python's `str.startswith`. -/
def startsWithSub : List Char → List Char → Bool
  | [], _ => true
  | _ :: _, [] => false
  | a :: as, b :: bs => a = b && startsWithSub as bs

/-- Python's substring test `needle in hay`. -/
def containsSub (needle : List Char) : List Char → Bool
  | [] => needle.isEmpty
  | c :: rest => startsWithSub needle (c :: rest) || containsSub needle rest

/-- `query_upper = re.sub(r'--.*', '', query).upper().strip()`
(line 17 of generic.py). -/
def normalizeQuery (q : List Char) : List Char :=
  stripWs ((stripComments q).map Char.toUpper)

/-- The denylist of line 20 of generic.py. -/
def dangerous_keywords : List (List Char) :=
  ["INSERT".toList, "UPDATE".toList, "DELETE".toList, "DROP".toList,
   "CREATE".toList, "ALTER".toList, "TRUNCATE".toList, "MERGE".toList]

/-- `is_read_only_query` (generic.py lines 14-29): strip single-line
comments, uppercase, strip whitespace; reject if any denylisted keyword
occurs as a substring; reject unless the text starts with SELECT or WITH. -/
def is_read_only_query (q : List Char) : Bool :=
  let query_upper := normalizeQuery q
  if dangerous_keywords.any (fun k => containsSub k query_upper) then false
  else if !(startsWithSub ("SELECT".toList) query_upper
            || startsWithSub ("WITH".toList) query_upper) then false
  else true

/-- The spec's taxonomy of gate rejections (spec §4.1, §7). -/
inductive Rejection where
  | UnsafeOperation
  | NotAReadQuery
deriving DecidableEq

/-- Kind-level refinement of `is_read_only_query`: the same two checks, in
the order the source performs them (keyword denylist first, then the
SELECT/WITH test), with the spec's name for each rejection. -/
def query_rejection (q : List Char) : Option Rejection :=
  let query_upper := normalizeQuery q
  if dangerous_keywords.any (fun k => containsSub k query_upper) then
    some Rejection.UnsafeOperation
  else if !(startsWithSub ("SELECT".toList) query_upper
            || startsWithSub ("WITH".toList) query_upper) then
    some Rejection.NotAReadQuery
  else none

/-- `add_limit_if_missing` (generic.py lines 31-38): if `LIMIT` does not
occur in the uppercased original query, strip trailing `;` then trailing
whitespace and append `f" LIMIT {limit}"`. -/
def add_limit_if_missing (q : List Char) (limit : Int) : List Char :=
  if containsSub ("LIMIT".toList) (q.map Char.toUpper) then q
  else rstripIf pyWhitespace (rstripIf (fun c => c = ';') q)
         ++ (" LIMIT ".toList ++ (Int.repr limit).toList)

/-- What reaches the execution collaborator for one execution: the query
text handed to `SnowflakeConnection.execute_query`, and the timeout the
cursor is configured with for that execution (if any). -/
structure CollaboratorCall where
  query_text : List Char
  timeout_param : Option Int
deriving DecidableEq

/-- `SnowflakeConnection.execute_query(query)`
(snowflake_connection.py lines 79-89): `cursor.execute(query)` is invoked
with the query text only — no timeout argument is supplied to the cursor,
so no timeout is configured on the execution. -/
def execute_query_call (q : List Char) : CollaboratorCall :=
  { query_text := q, timeout_param := none }

/-- `timeout = int(os.getenv('QUERY_TIMEOUT_SECONDS', '300'))`
(generic.py line 100).  The environment value is modelled post-parse. -/
def query_timeout_seconds (env : Option Int) : Int := env.getD 300

/-- The pre-execution pipeline of `execute_account_usage_query`
(generic.py lines 91-103): validate with `is_read_only_query`, rewrite with
`add_limit_if_missing`, then call `snowflake_conn.execute_query(query)`.
Returns `none` when the gate rejects (no collaborator call is made). -/
def account_usage_exec_call (q : List Char) (limit : Int) :
    Option CollaboratorCall :=
  if is_read_only_query q then
    some (execute_query_call (add_limit_if_missing q limit))
  else none

/-! ### Anomaly detection (src/tools/security.py, `detect_unusual_access_patterns`)

The detector is a single SQL query (security.py lines 350-440) executed by
the Snowflake warehouse, plus pandas post-processing.  We embed it relation
by relation, starting from the rows of the `user_access_stats` CTE (one row
per (user, date, hour) produced by the GROUP BY; all its columns are
non-NULL counts/sums) and of the joined `new_object_access` input relation
(`ACCESS_HISTORY` joined with `TABLES` on the qualified object name).
Timestamps are modelled in hours (`DATE(t)` = `⌊t/24⌋`, `HOUR(t)` = the
hour within the day); numeric values are exact rationals. -/

/-- A row of the `user_access_stats` CTE (security.py lines 352-365). -/
structure BucketRow where
  user_name : List Char
  access_date : Int
  access_hour : Int
  query_count : Int
  objects_accessed : Int
  total_rows : Int
  databases_accessed : Int
deriving DecidableEq

/-- A row of the `user_baseline` CTE (security.py lines 366-376).  All four
aggregate columns are nullable.  `STDDEV` in Snowflake is an alias of
`STDDEV_SAMP`, the square root of the sample variance `VAR_SAMP`, which is
NULL for a group of fewer than two rows; we carry the variance
(`var_queries` = STDDEV_QUERIES squared), which is NULL exactly when the
stddev is, and phrase the classifier's comparison in the algebraically
equivalent square-free form (justified by `gtPlusMulSqrt_iff_real`). -/
structure BaselineRow where
  avg_queries : Option ℚ
  var_queries : Option ℚ
  avg_objects : Option ℚ
  avg_rows : Option ℚ
deriving DecidableEq

/-- SQL `AVG` over a non-nullable integer column (NULL on the empty group,
which never materializes out of a GROUP BY). -/
def sqlAvg (l : List Int) : Option ℚ :=
  if l = [] then none else some ((l.map fun x => (x : ℚ)).sum / l.length)

/-- SQL `VAR_SAMP` over a non-nullable integer column: NULL for groups of
fewer than two rows, else the sum of squared deviations from the mean
divided by `n - 1`.  Snowflake's `STDDEV` is its square root. -/
def sqlVarSamp (l : List Int) : Option ℚ :=
  if l.length < 2 then none
  else
    some (((l.map fun x =>
        ((x : ℚ) - (l.map fun y => (y : ℚ)).sum / l.length) ^ 2).sum)
      / ((l.length : ℚ) - 1))

/-- One `user_baseline` row, computed from the stats rows of one user. -/
def user_baseline (l : List BucketRow) : BaselineRow :=
  { avg_queries := sqlAvg (l.map fun s => s.query_count),
    var_queries := sqlVarSamp (l.map fun s => s.query_count),
    avg_objects := sqlAvg (l.map fun s => s.objects_accessed),
    avg_rows := sqlAvg (l.map fun s => s.total_rows) }

/-- The stats rows of one user (the GROUP BY USER_NAME grouping). -/
def user_rows (stats : List BucketRow) (u : List Char) : List BucketRow :=
  stats.filter fun s => decide (s.user_name = u)

/-- The baseline row the `anomalies` CTE joins to a stats row of user `u`. -/
def baseline_for (stats : List BucketRow) (u : List Char) : BaselineRow :=
  user_baseline (user_rows stats u)

/-- The values of the `ANOMALY_TYPE` column of the `anomalies` CTE
(security.py lines 389-395), plus the label used by the new-object branch
of the UNION (line 432). -/
inductive AnomalyType where
  | UnusualHours
  | HighQueryVolume
  | HighDataVolume
  | MultipleDatabaseAccess
  | NewObjectAccess
  | Normal
deriving DecidableEq

/-- Square-free form of the SQL comparison
`qc > avg + (m * sqrt v)` (for `0 ≤ m`, `0 ≤ v`):
`avg < qc` and `m^2 * v < (qc - avg)^2`.  `gtPlusMulSqrt_iff_real` proves
the equivalence with the real-valued comparison. -/
def gtPlusMulSqrt (qc avg m v : ℚ) : Bool :=
  decide (avg < qc) && decide (m ^ 2 * v < (qc - avg) ^ 2)

/-- `s.QUERY_COUNT > b.AVG_QUERIES + (m * b.STDDEV_QUERIES)` under SQL
three-valued logic: a NULL operand makes the comparison non-TRUE, so the
`WHEN` branch does not fire. -/
def hqvCond (m : ℚ) (s : BucketRow) (b : BaselineRow) : Bool :=
  match b.avg_queries, b.var_queries with
  | some avg, some v => gtPlusMulSqrt (s.query_count : ℚ) avg m v
  | _, _ => false

/-- `s.TOTAL_ROWS > b.AVG_ROWS * m`, NULL-aware. -/
def hdvCond (m : ℚ) (s : BucketRow) (b : BaselineRow) : Bool :=
  match b.avg_rows with
  | some ar => decide (ar * m < (s.total_rows : ℚ))
  | none => false

/-- `s.ACCESS_HOUR < 6 OR s.ACCESS_HOUR > 22`. -/
def unusualHoursCond (s : BucketRow) : Bool :=
  decide (s.access_hour < 6) || decide (22 < s.access_hour)

/-- The `CASE` expression computing `ANOMALY_TYPE` (security.py lines
389-395): first matching `WHEN` wins, `ELSE 'Normal'`. -/
def anomaly_type (m : ℚ) (s : BucketRow) (b : BaselineRow) : AnomalyType :=
  if unusualHoursCond s then AnomalyType.UnusualHours
  else if hqvCond m s b then AnomalyType.HighQueryVolume
  else if hdvCond m s b then AnomalyType.HighDataVolume
  else if 3 < s.databases_accessed then AnomalyType.MultipleDatabaseAccess
  else AnomalyType.Normal

/-- A row of the final UNION ALL result (security.py lines 413-437),
i.e. one anomaly record handed to the pandas post-processing. -/
structure AnomalyRecord where
  user_name : List Char
  access_date : Int
  access_hour : Int
  anomaly_kind : AnomalyType
  query_count : Int
  objects_accessed : Int
  total_rows : Int
  databases_accessed : Int
deriving DecidableEq

/-- The record the first UNION branch builds from an `anomalies` row. -/
def bucket_record (s : BucketRow) (t : AnomalyType) : AnomalyRecord :=
  { user_name := s.user_name, access_date := s.access_date,
    access_hour := s.access_hour, anomaly_kind := t,
    query_count := s.query_count, objects_accessed := s.objects_accessed,
    total_rows := s.total_rows,
    databases_accessed := s.databases_accessed }

/-- The `anomalies` CTE joined with `user_baseline` and filtered by
`ANOMALY_TYPE != 'Normal'` (security.py lines 377-397 and 414-424),
projected to result records. -/
def bucket_anomaly_records (m : ℚ) (stats : List BucketRow) :
    List AnomalyRecord :=
  ((stats.map fun s => (s, anomaly_type m s (baseline_for stats s.user_name))).filter
      fun p => decide (p.2 ≠ AnomalyType.Normal)).map
    fun p => bucket_record p.1 p.2

/-- A row of the relation the `new_object_access` CTE filters:
`ACCESS_HISTORY` joined with `TABLES` on the qualified object name
(security.py lines 399-405).  Times are in hours. -/
structure AccessRow where
  user_name : List Char
  object_name : List Char
  query_start_time : ℚ
  object_created : ℚ
deriving DecidableEq

/-- The three sensitivity parameters (security.py lines 342-346). -/
structure Thresholds where
  hour_threshold : ℚ
  volume_multiplier : ℚ
  new_object_days : ℚ
deriving DecidableEq

/-- `config = thresholds.get(sensitivity_level, thresholds['medium'])`
(security.py lines 342-348): dictionary lookup with fallback to the
`medium` entry for any unrecognized key. -/
def config_for (sensitivity_level : List Char) : Thresholds :=
  if sensitivity_level = "low".toList then
    { hour_threshold := 2, volume_multiplier := 10, new_object_days := 90 }
  else if sensitivity_level = "medium".toList then
    { hour_threshold := 4, volume_multiplier := 5, new_object_days := 30 }
  else if sensitivity_level = "high".toList then
    { hour_threshold := 8, volume_multiplier := 3, new_object_days := 7 }
  else
    { hour_threshold := 4, volume_multiplier := 5, new_object_days := 30 }

/-- The `new_object_access` CTE's WHERE clause (security.py lines 406-411):
the access is inside the look-back window, the object was created within
the last `new_object_days` days, and the access happened strictly less than
`hour_threshold` hours after creation
(`QUERY_START_TIME < DATEADD(hour, hour_threshold, CREATED)`). -/
def new_object_access (now days_back : ℚ) (cfg : Thresholds)
    (rows : List AccessRow) : List AccessRow :=
  rows.filter fun r =>
    decide (now - 24 * days_back ≤ r.query_start_time)
    && decide (now - 24 * cfg.new_object_days ≤ r.object_created)
    && decide (r.query_start_time < r.object_created + cfg.hour_threshold)

/-- `DATE(t)` for a timestamp in hours. -/
def dateOf (t : ℚ) : Int := Int.floor (t / 24)

/-- `HOUR(t)` for a timestamp in hours. -/
def hourOf (t : ℚ) : Int := Int.floor t - 24 * Int.floor (t / 24)

/-- The record the second UNION branch builds from a `new_object_access`
row (security.py lines 426-437): fixed kind `'New Object Access'` and
constant context columns `1, 1, 0, 1`. -/
def new_object_record (r : AccessRow) : AnomalyRecord :=
  { user_name := r.user_name, access_date := dateOf r.query_start_time,
    access_hour := hourOf r.query_start_time,
    anomaly_kind := AnomalyType.NewObjectAccess,
    query_count := 1, objects_accessed := 1, total_rows := 0,
    databases_accessed := 1 }

/-- Records of the second UNION branch. -/
def new_object_records (now days_back : ℚ) (cfg : Thresholds)
    (rows : List AccessRow) : List AnomalyRecord :=
  (new_object_access now days_back cfg rows).map new_object_record

/-- The full UNION ALL result of the detector's query (security.py lines
413-439).  The trailing ORDER BY only permutes rows and is irrelevant to
the counting properties proved below, so it is not modelled. -/
def detect_records (now days_back : ℚ) (cfg : Thresholds)
    (stats : List BucketRow) (accesses : List AccessRow) :
    List AnomalyRecord :=
  bucket_anomaly_records cfg.volume_multiplier stats
    ++ new_object_records now days_back cfg accesses

/-- `df.groupby(['USER_NAME', 'ANOMALY_TYPE']).size()` (security.py line
473): the set of distinct (user, kind) pairs occurring in the result. -/
def user_anomaly_pairs (records : List AnomalyRecord) :
    Finset (List Char × AnomalyType) :=
  (records.map fun r => (r.user_name, r.anomaly_kind)).toFinset

/-- `user_anomalies.groupby('USER_NAME').size()` restricted to user `u`
(security.py line 476): the number of distinct-kind group rows of `u`. -/
def user_kind_group_count (records : List AnomalyRecord) (u : List Char) :
    Nat :=
  ((user_anomaly_pairs records).filter fun p => p.1 = u).card

/-- `high_risk_users = high_risk_users[high_risk_users >= 3]`
(security.py line 477): user `u` is flagged high risk. -/
def is_high_risk (records : List AnomalyRecord) (u : List Char) : Bool :=
  decide (3 ≤ user_kind_group_count records u)

/-- The (user, date, hour) GROUP BY key of two stats rows coincides. -/
def same_key (x s : BucketRow) : Bool :=
  decide (x.user_name = s.user_name)
    && decide (x.access_date = s.access_date)
    && decide (x.access_hour = s.access_hour)

/-- An output record carries the (user, date, hour) key of bucket `s`. -/
def rec_key_matches (rec : AnomalyRecord) (s : BucketRow) : Bool :=
  decide (rec.user_name = s.user_name)
    && decide (rec.access_date = s.access_date)
    && decide (rec.access_hour = s.access_hour)

/-! Concrete inputs used by the witness and counterexample theorems. -/

/-- A bucket at hour 23 with 1000 rows produced, for user carol. -/
def carolBucket : BucketRow :=
  { user_name := "carol".toList, access_date := 0, access_hour := 23,
    query_count := 1, objects_accessed := 1, total_rows := 1000,
    databases_accessed := 1 }

/-- Carol's observation window: the hour-23 bucket plus three daytime
buckets with no rows produced (so her avg_rows baseline is 250). -/
def carolStats : List BucketRow :=
  [carolBucket,
   { user_name := "carol".toList, access_date := 0, access_hour := 10,
     query_count := 1, objects_accessed := 1, total_rows := 0,
     databases_accessed := 1 },
   { user_name := "carol".toList, access_date := 0, access_hour := 11,
     query_count := 1, objects_accessed := 1, total_rows := 0,
     databases_accessed := 1 },
   { user_name := "carol".toList, access_date := 0, access_hour := 12,
     query_count := 1, objects_accessed := 1, total_rows := 0,
     databases_accessed := 1 }]

/-- A single daytime bucket for user alice. -/
def aliceBucket : BucketRow :=
  { user_name := "alice".toList, access_date := 0, access_hour := 12,
    query_count := 5, objects_accessed := 1, total_rows := 100,
    databases_accessed := 1 }

/-- A single daytime bucket for user bob. -/
def bobBucket : BucketRow :=
  { user_name := "bob".toList, access_date := 0, access_hour := 14,
    query_count := 7, objects_accessed := 2, total_rows := 10,
    databases_accessed := 1 }

/-- An access by dave two hours after the accessed object was created. -/
def daveRow : AccessRow :=
  { user_name := "dave".toList, object_name := "DB1.S1.T1".toList,
    query_start_time := 2, object_created := 0 }

/-! ### Theorems -/

theorem is_read_only_query_eq_rejection (q : List Char) :
    is_read_only_query q = (query_rejection q).isNone := by
  unfold is_read_only_query query_rejection
  dsimp only
  split
  · rfl
  · split <;> rfl

example : is_read_only_query ("SELECT 1".toList) = true := by decide
example : is_read_only_query ("SELECT 1 -- DROP".toList) = true := by decide
example : is_read_only_query ("drop table t".toList) = false := by decide
example : query_rejection ("DROP TABLE T1".toList)
    = some Rejection.UnsafeOperation := by decide
example : add_limit_if_missing ("SELECT 1 ;".toList) 10
    = "SELECT 1 LIMIT 10".toList := by decide
example : add_limit_if_missing ("SELECT mylimit FROM t".toList) 10
    = "SELECT mylimit FROM t".toList := by decide

theorem containsSub_append_right (k s t : List Char)
    (h : containsSub k t = true) : containsSub k (s ++ t) = true := by
  induction s with
  | nil => simpa using h
  | cons c cs ih => simp [containsSub, ih]

theorem containsSub_limit_marker (rest : List Char) :
    containsSub ("LIMIT".toList) (' ' :: 'L' :: 'I' :: 'M' :: 'I' :: 'T' :: rest)
      = true := rfl

theorem add_limit_contains_limit (q : List Char) (n : Int)
    (h : containsSub ("LIMIT".toList) (q.map Char.toUpper) = false) :
    containsSub ("LIMIT".toList)
      ((add_limit_if_missing q n).map Char.toUpper) = true := by
  unfold add_limit_if_missing
  rw [h]
  simp only [Bool.false_eq_true, if_false, List.map_append]
  apply containsSub_append_right
  exact containsSub_limit_marker
    (' ' :: (Int.repr n).toList.map Char.toUpper)

theorem add_limit_if_missing_idem (q : List Char) (n : Int) :
    add_limit_if_missing (add_limit_if_missing q n) n
      = add_limit_if_missing q n := by
  by_cases h : containsSub ("LIMIT".toList) (q.map Char.toUpper) = true
  · have e : add_limit_if_missing q n = q := by
      unfold add_limit_if_missing; rw [if_pos h]
    rw [e]
    exact e
  · have h' : containsSub ("LIMIT".toList) (q.map Char.toUpper) = false := by
      simpa using h
    have e : add_limit_if_missing q n
        = rstripIf pyWhitespace (rstripIf (fun c => c = ';') q)
            ++ (" LIMIT ".toList ++ (Int.repr n).toList) := by
      unfold add_limit_if_missing
      rw [h']
      simp only [Bool.false_eq_true, if_false]
    have hc := add_limit_contains_limit q n h'
    rw [e] at hc ⊢
    unfold add_limit_if_missing
    rw [if_pos hc]

/-! ### Claims about the Query Safety Gate -/

/-- C1 (amended): for every SQL string whose comment-stripped, uppercased,
whitespace-stripped text contains a denylisted keyword — i.e. the keyword
survives comment removal — the gate rejects it with kind `UnsafeOperation`.
(The claim's original universal form fails: a keyword occurring only inside
a `--` comment is removed before the check, see
`C1_counterexample_comment_keyword`.) -/
theorem C1_gate_rejects_surviving_keyword (q k : List Char)
    (hk : k ∈ dangerous_keywords)
    (hc : containsSub k (normalizeQuery q) = true) :
    query_rejection q = some Rejection.UnsafeOperation := by
  unfold query_rejection
  dsimp only
  rw [if_pos]
  exact List.any_eq_true.mpr ⟨k, hk, hc⟩

/-- C1 counterexample: `"SELECT 1 -- DROP"` contains the denylisted keyword
`DROP` (uppercased substring test), yet the gate accepts it — the comment
is stripped before the denylist check, so a keyword inside a comment does
NOT cause an `UnsafeOperation` rejection, contrary to the claim. -/
theorem C1_counterexample_comment_keyword :
    containsSub ("DROP".toList)
        (("SELECT 1 -- DROP".toList).map Char.toUpper) = true
      ∧ is_read_only_query ("SELECT 1 -- DROP".toList) = true
      ∧ query_rejection ("SELECT 1 -- DROP".toList) = none := by decide

/-- Witness for `C1_gate_rejects_surviving_keyword` at the concrete input
`"delete from t"` with keyword `DELETE` (lower-case in the query). -/
theorem C1_witness :
    (("DELETE".toList ∈ dangerous_keywords)
        ∧ containsSub ("DELETE".toList)
            (normalizeQuery ("delete from t".toList)) = true)
      ∧ query_rejection ("delete from t".toList)
          = some Rejection.UnsafeOperation :=
  ⟨⟨by decide, by decide⟩,
    C1_gate_rejects_surviving_keyword ("delete from t".toList)
      ("DELETE".toList) (by decide) (by decide)⟩

/-- C5: on every query accepted by the gate, the validate-and-bound rewrite
is idempotent — applying `add_limit_if_missing` twice yields the same text
as applying it once (the appended ` LIMIT n` clause makes the `LIMIT`
substring test succeed on the second pass). -/
theorem C5_rewrite_idempotent (q : List Char) (n : Int)
    (_hq : is_read_only_query q = true) :
    add_limit_if_missing (add_limit_if_missing q n) n
      = add_limit_if_missing q n :=
  add_limit_if_missing_idem q n

/-- Witness for `C5_rewrite_idempotent` at `"SELECT a FROM t;"`, limit 10. -/
theorem C5_witness :
    is_read_only_query ("SELECT a FROM t;".toList) = true
      ∧ add_limit_if_missing
            (add_limit_if_missing ("SELECT a FROM t;".toList) 10) 10
          = add_limit_if_missing ("SELECT a FROM t;".toList) 10 :=
  ⟨by decide, C5_rewrite_idempotent ("SELECT a FROM t;".toList) 10 (by decide)⟩

/-- C6 (amended): every SQL string whose comment-stripped normalized text
does not begin with `SELECT` or `WITH` is rejected by the gate (it never
reaches execution); the rejection kind is `NotAReadQuery` provided no
denylisted keyword occurs in the normalized text — otherwise the denylist
check fires first and the kind is `UnsafeOperation`
(see `C6_counterexample_keyword_first`). -/
theorem C6_gate_rejects_non_select (q : List Char)
    (h1 : startsWithSub ("SELECT".toList) (normalizeQuery q) = false)
    (h2 : startsWithSub ("WITH".toList) (normalizeQuery q) = false) :
    (query_rejection q).isSome = true
      ∧ (dangerous_keywords.any (fun k => containsSub k (normalizeQuery q))
            = false →
          query_rejection q = some Rejection.NotAReadQuery) := by
  unfold query_rejection
  dsimp only
  by_cases hkw : dangerous_keywords.any
      (fun k => containsSub k (normalizeQuery q)) = true
  · rw [if_pos hkw]
    exact ⟨rfl, fun hfalse => by rw [hkw] at hfalse; cases hfalse⟩
  · have hkw' : dangerous_keywords.any
        (fun k => containsSub k (normalizeQuery q)) = false := by
      simpa using hkw
    have hcond : (!(startsWithSub ("SELECT".toList) (normalizeQuery q)
        || startsWithSub ("WITH".toList) (normalizeQuery q))) = true := by
      rw [h1, h2]
      rfl
    rw [if_neg (by simp [hkw']), if_pos hcond]
    exact ⟨rfl, fun _ => rfl⟩

/-- C6 counterexample: `"DROP TABLE T1"` does not begin with `SELECT` or
`WITH` after normalization, but the gate's rejection kind is
`UnsafeOperation` (the denylist check runs first), not `NotAReadQuery` as
the claim states for every such string. -/
theorem C6_counterexample_keyword_first :
    startsWithSub ("SELECT".toList)
        (normalizeQuery ("DROP TABLE T1".toList)) = false
      ∧ startsWithSub ("WITH".toList)
          (normalizeQuery ("DROP TABLE T1".toList)) = false
      ∧ query_rejection ("DROP TABLE T1".toList)
          = some Rejection.UnsafeOperation := by decide

/-- Witness for `C6_gate_rejects_non_select` at `"show tables"`. -/
theorem C6_witness :
    (startsWithSub ("SELECT".toList)
          (normalizeQuery ("show tables".toList)) = false
        ∧ startsWithSub ("WITH".toList)
            (normalizeQuery ("show tables".toList)) = false)
      ∧ ((query_rejection ("show tables".toList)).isSome = true
          ∧ (dangerous_keywords.any
                (fun k => containsSub k (normalizeQuery ("show tables".toList)))
                  = false →
              query_rejection ("show tables".toList)
                = some Rejection.NotAReadQuery)) :=
  ⟨⟨by decide, by decide⟩,
    C6_gate_rejects_non_select ("show tables".toList) (by decide) (by decide)⟩

/-- C8 (code bug): for the accepted query `"SELECT 1"` (limit 1000), the
gate computes the timeout default `query_timeout_seconds none = 300` from
`QUERY_TIMEOUT_SECONDS`, but the collaborator call actually made passes the
rewritten query text only — `timeout_param = none`, so the execution
collaborator is never configured with the caller-supplied timeout,
contradicting the claim. -/
theorem C8_timeout_never_reaches_collaborator :
    account_usage_exec_call ("SELECT 1".toList) 1000
        = some { query_text := "SELECT 1 LIMIT 1000".toList,
                 timeout_param := none }
      ∧ query_timeout_seconds none = 300 := by decide

/-- C10: whenever the uppercased query text contains `LIMIT` as a plain
substring — even inside an identifier, string literal, or comment —
`add_limit_if_missing` returns the query unchanged and no row bound is
appended. -/
theorem C10_limit_substring_suppresses_bound (q : List Char) (n : Int)
    (h : containsSub ("LIMIT".toList) (q.map Char.toUpper) = true) :
    add_limit_if_missing q n = q := by
  unfold add_limit_if_missing
  rw [if_pos h]

/-- Witness for `C10_limit_substring_suppresses_bound`: `LIMIT` occurs only
inside the identifier `mylimit`, yet the query is left unbounded. -/
theorem C10_witness :
    containsSub ("LIMIT".toList)
        (("SELECT mylimit FROM t".toList).map Char.toUpper) = true
      ∧ add_limit_if_missing ("SELECT mylimit FROM t".toList) 50
          = "SELECT mylimit FROM t".toList :=
  ⟨by decide,
    C10_limit_substring_suppresses_bound ("SELECT mylimit FROM t".toList) 50
      (by decide)⟩

/-! ### Supporting lemmas for the detector -/

/-- Justification of the square-free embedding of the `High Query Volume`
comparison: for a non-negative multiplier and variance, the SQL predicate
`qc > avg + m * STDDEV` (with `STDDEV = sqrt v` over the reals) is
equivalent to `gtPlusMulSqrt`. -/
theorem gtPlusMulSqrt_iff_real (qc avg m v : ℚ) (hm : 0 ≤ m) (hv : 0 ≤ v) :
    gtPlusMulSqrt qc avg m v = true
      ↔ (avg : ℝ) + (m : ℝ) * Real.sqrt (v : ℝ) < (qc : ℝ) := by
  unfold gtPlusMulSqrt
  rw [Bool.and_eq_true, decide_eq_true_eq, decide_eq_true_eq]
  have hmr : (0 : ℝ) ≤ (m : ℝ) := by exact_mod_cast hm
  have hvr : (0 : ℝ) ≤ (v : ℝ) := by exact_mod_cast hv
  have hs := Real.sqrt_nonneg (v : ℝ)
  have hsq : Real.sqrt (v : ℝ) ^ 2 = (v : ℝ) := Real.sq_sqrt hvr
  constructor
  · rintro ⟨h1, h2⟩
    have h1r : (avg : ℝ) < (qc : ℝ) := by exact_mod_cast h1
    have h2r : (m : ℝ) ^ 2 * (v : ℝ) < ((qc : ℝ) - (avg : ℝ)) ^ 2 := by
      exact_mod_cast h2
    nlinarith [mul_nonneg hmr hs, sq_nonneg ((m : ℝ) * Real.sqrt (v : ℝ))]
  · intro hlt
    have hb : (0 : ℝ) ≤ (m : ℝ) * Real.sqrt (v : ℝ) := mul_nonneg hmr hs
    have h1r : (avg : ℝ) < (qc : ℝ) := by linarith
    have h2r : (m : ℝ) ^ 2 * (v : ℝ) < ((qc : ℝ) - (avg : ℝ)) ^ 2 := by
      nlinarith
    exact ⟨by exact_mod_cast h1r, by exact_mod_cast h2r⟩

/-- The bucket-level `CASE` expression never yields the new-object label. -/
theorem anomaly_type_ne_new_object (m : ℚ) (s : BucketRow) (b : BaselineRow) :
    anomaly_type m s b ≠ AnomalyType.NewObjectAccess := by
  unfold anomaly_type
  repeat' split
  all_goals decide

/-- The first `WHEN` of the `CASE` wins whenever the unusual-hours
condition holds, whatever the baseline says. -/
theorem anomaly_type_of_unusual_hours (m : ℚ) (x : BucketRow)
    (b : BaselineRow) (h : unusualHoursCond x = true) :
    anomaly_type m x b = AnomalyType.UnusualHours := by
  unfold anomaly_type
  rw [if_pos h]

theorem same_key_self (s : BucketRow) : same_key s s = true := by
  simp [same_key]

theorem rec_key_matches_bucket_record (x : BucketRow) (t : AnomalyType)
    (s : BucketRow) :
    rec_key_matches (bucket_record x t) s = same_key x s := rfl

/-- In a list where predicate `p` counts exactly one occurrence, the
element `a` satisfying `p` is the only member satisfying it. -/
theorem countP_eq_one_unique {α : Type} (p : α → Bool) (l : List α)
    (hc : l.countP p = 1) (a : α) (ha : a ∈ l) (hpa : p a = true) :
    ∀ x ∈ l, p x = true → x = a := by
  intro x hx hpx
  by_contra hne
  obtain ⟨s, t, rfl⟩ := List.append_of_mem ha
  rw [List.countP_append, List.countP_cons_of_pos _ _ hpa] at hc
  rcases List.mem_append.mp hx with hxs | hxt
  · have hpos : 0 < s.countP p := List.countP_pos_iff.mpr ⟨x, hxs, hpx⟩
    omega
  · rcases List.mem_cons.mp hxt with heq | hxt'
    · exact hne heq
    · have hpos : 0 < t.countP p := List.countP_pos_iff.mpr ⟨x, hxt', hpx⟩
      omega

/-- New-object branch records all carry the `NewObjectAccess` kind, so they
never count towards a bucket-kind predicate. -/
theorem countP_new_object_records_non_new (now days_back : ℚ)
    (cfg : Thresholds) (accesses : List AccessRow) (s : BucketRow) :
    (new_object_records now days_back cfg accesses).countP
        (fun rec => rec_key_matches rec s
          && decide (rec.anomaly_kind ≠ AnomalyType.NewObjectAccess)) = 0 := by
  unfold new_object_records
  rw [List.countP_map]
  apply List.countP_eq_zero.mpr
  intro r _
  simp [Function.comp, new_object_record]

/-! ### Claims about the detector -/

/-- C2: a bucket occurring once in the stats relation that satisfies both
the unusual-hours condition and the high-data-volume threshold produces
exactly one bucket-level record in the detector result, and its kind is
`UnusualHours`; moreover the first `WHEN` always wins whenever the
unusual-hours condition holds (first-match-wins priority). -/
theorem C2_unusual_hours_priority (now days_back : ℚ) (cfg : Thresholds)
    (stats : List BucketRow) (accesses : List AccessRow) (s : BucketRow)
    (hmem : s ∈ stats)
    (huniq : stats.countP (fun x => same_key x s) = 1)
    (hhour : unusualHoursCond s = true)
    (_hhdv : hdvCond cfg.volume_multiplier s
        (baseline_for stats s.user_name) = true) :
    ((detect_records now days_back cfg stats accesses).countP
        (fun rec => rec_key_matches rec s
          && decide (rec.anomaly_kind ≠ AnomalyType.NewObjectAccess)) = 1)
      ∧ (∀ rec ∈ detect_records now days_back cfg stats accesses,
          rec_key_matches rec s = true →
          rec.anomaly_kind ≠ AnomalyType.NewObjectAccess →
          rec.anomaly_kind = AnomalyType.UnusualHours)
      ∧ (∀ (m : ℚ) (x : BucketRow) (b : BaselineRow),
          unusualHoursCond x = true →
          anomaly_type m x b = AnomalyType.UnusualHours) := by
  have huniq' : ∀ x ∈ stats, same_key x s = true → x = s :=
    countP_eq_one_unique _ _ huniq s hmem (same_key_self s)
  refine ⟨?_, ?_, fun m x b h => anomaly_type_of_unusual_hours m x b h⟩
  · unfold detect_records
    rw [List.countP_append, countP_new_object_records_non_new, Nat.add_zero]
    unfold bucket_anomaly_records
    rw [List.countP_map, List.countP_filter, List.countP_map]
    have hstep : stats.countP (fun x =>
          (rec_key_matches (bucket_record x
                (anomaly_type cfg.volume_multiplier x
                  (baseline_for stats x.user_name))) s
              && decide ((bucket_record x
                  (anomaly_type cfg.volume_multiplier x
                    (baseline_for stats x.user_name))).anomaly_kind
                  ≠ AnomalyType.NewObjectAccess))
            && decide ((anomaly_type cfg.volume_multiplier x
                (baseline_for stats x.user_name)) ≠ AnomalyType.Normal))
        = stats.countP (fun x => same_key x s) := by
      apply List.countP_congr
      intro x hx
      rw [rec_key_matches_bucket_record]
      by_cases hk : same_key x s = true
      · have hxs : x = s := huniq' x hx hk
        subst hxs
        rw [anomaly_type_of_unusual_hours _ _ _ hhour]
        simp [hk, bucket_record]
      · rw [Bool.not_eq_true] at hk
        simp [hk]
    rw [← huniq, ← hstep]
    rfl
  · intro rec hrec hkey hkind
    unfold detect_records at hrec
    rw [List.mem_append] at hrec
    rcases hrec with hb | hn
    · unfold bucket_anomaly_records at hb
      rw [List.mem_map] at hb
      obtain ⟨p, hp, rfl⟩ := hb
      rw [List.mem_filter, List.mem_map] at hp
      obtain ⟨⟨x, hx, rfl⟩, _⟩ := hp
      have hxs : x = s := huniq' x hx
        (by rw [← rec_key_matches_bucket_record]; exact hkey)
      subst hxs
      exact anomaly_type_of_unusual_hours _ _ _ hhour
    · unfold new_object_records at hn
      rw [List.mem_map] at hn
      obtain ⟨r, _, rfl⟩ := hn
      exact absurd rfl hkind

/-- Witness for `C2_unusual_hours_priority`: carol's hour-23 bucket with
1000 rows against her 250-row average, under `high` sensitivity
(multiplier 3), yields exactly one record, of kind `UnusualHours`. -/
theorem C2_witness :
    (carolBucket ∈ carolStats
        ∧ carolStats.countP (fun x => same_key x carolBucket) = 1
        ∧ unusualHoursCond carolBucket = true
        ∧ hdvCond (config_for ("high".toList)).volume_multiplier carolBucket
            (baseline_for carolStats carolBucket.user_name) = true)
      ∧ (((detect_records 0 7 (config_for ("high".toList)) carolStats []).countP
            (fun rec => rec_key_matches rec carolBucket
              && decide (rec.anomaly_kind ≠ AnomalyType.NewObjectAccess)) = 1)
          ∧ (∀ rec ∈ detect_records 0 7 (config_for ("high".toList)) carolStats [],
              rec_key_matches rec carolBucket = true →
              rec.anomaly_kind ≠ AnomalyType.NewObjectAccess →
              rec.anomaly_kind = AnomalyType.UnusualHours)
          ∧ (∀ (m : ℚ) (x : BucketRow) (b : BaselineRow),
              unusualHoursCond x = true →
              anomaly_type m x b = AnomalyType.UnusualHours)) := by
  have hhdv : hdvCond (config_for ("high".toList)).volume_multiplier
      carolBucket (baseline_for carolStats carolBucket.user_name) = true := by
    have hcfg : config_for ("high".toList)
        = { hour_threshold := 8, volume_multiplier := 3,
            new_object_days := 7 } := by decide
    rw [hcfg]
    norm_num [hdvCond, baseline_for, user_baseline, user_rows,
      sqlAvg, carolStats, carolBucket, List.filter]
    rw [if_neg (by decide)]
    norm_num
  exact ⟨⟨by decide, by decide, by decide, hhdv⟩,
    C2_unusual_hours_priority 0 7 (config_for ("high".toList)) carolStats []
      carolBucket (by decide) (by decide) (by decide) hhdv⟩

/-- C3 (amended): for a user whose observation window yields exactly one
stats bucket, the baseline's STDDEV of query counts is NULL (Snowflake's
`STDDEV` is the sample standard deviation `STDDEV_SAMP`, undefined for a
single observation — not 0, and not the population standard deviation);
the NULL propagates through the `High Query Volume` comparison, which is
therefore never TRUE, so that user's records are never classified
`HighQueryVolume` — the claim's consequence survives, with NULL-propagation
rather than a zero stddev as the reason. -/
theorem C3_single_bucket_never_hqv (m : ℚ) (stats : List BucketRow)
    (s : BucketRow) (h : user_rows stats s.user_name = [s]) :
    (baseline_for stats s.user_name).var_queries = none
      ∧ ∀ rec ∈ bucket_anomaly_records m stats,
          rec.user_name = s.user_name →
          rec.anomaly_kind ≠ AnomalyType.HighQueryVolume := by
  have hb : baseline_for stats s.user_name = user_baseline [s] := by
    unfold baseline_for
    rw [h]
  have hvar : (user_baseline [s]).var_queries = none := by
    simp [user_baseline, sqlVarSamp]
  constructor
  · rw [hb]
    exact hvar
  · intro rec hrec huser
    unfold bucket_anomaly_records at hrec
    rw [List.mem_map] at hrec
    obtain ⟨p, hp, rfl⟩ := hrec
    rw [List.mem_filter, List.mem_map] at hp
    obtain ⟨⟨x, hx, rfl⟩, _⟩ := hp
    have hbx : baseline_for stats x.user_name = user_baseline [s] := by
      have hxu : x.user_name = s.user_name := huser
      rw [hxu, hb]
    show anomaly_type m x (baseline_for stats x.user_name)
        ≠ AnomalyType.HighQueryVolume
    rw [hbx]
    have hq : hqvCond m x (user_baseline [s]) = false := by
      unfold hqvCond
      rw [hvar]
      cases (user_baseline [s]).avg_queries <;> rfl
    unfold anomaly_type
    rw [hq]
    simp only [Bool.false_eq_true, if_false]
    repeat' split
    all_goals decide

/-- C3 counterexample: for a user with a single bucket the computed
baseline's `STDDEV(QUERY_COUNT)` is NULL, not 0 as the claim states
(`STDDEV` is `STDDEV_SAMP`, which needs at least two rows). -/
theorem C3_counterexample_stddev_null :
    (baseline_for [bobBucket] ("bob".toList)).var_queries = none
      ∧ (baseline_for [bobBucket] ("bob".toList)).var_queries
          ≠ some (0 : ℚ) := ⟨by decide, by decide⟩

/-- Witness for `C3_single_bucket_never_hqv` at alice's single bucket. -/
theorem C3_witness :
    user_rows [aliceBucket] aliceBucket.user_name = [aliceBucket]
      ∧ ((baseline_for [aliceBucket] aliceBucket.user_name).var_queries = none
          ∧ ∀ rec ∈ bucket_anomaly_records 5 [aliceBucket],
              rec.user_name = aliceBucket.user_name →
              rec.anomaly_kind ≠ AnomalyType.HighQueryVolume) :=
  ⟨by decide,
    C3_single_bucket_never_hqv 5 [aliceBucket] aliceBucket (by decide)⟩

/-- C4: an access exactly 2 hours after object creation, inside the
look-back and new-object windows, yields exactly one `NewObjectAccess`
record under `high` sensitivity (hour_threshold 8), and none under `low`
sensitivity (hour_threshold 2) — the boundary test
`QUERY_START_TIME < DATEADD(hour, h, CREATED)` is strict. -/
theorem C4_new_object_boundary (now days_back : ℚ)
    (stats : List BucketRow) (r : AccessRow)
    (htime : r.query_start_time = r.object_created + 2)
    (hwin : now - 24 * days_back ≤ r.query_start_time)
    (hnew : now - 24 * 7 ≤ r.object_created) :
    ((detect_records now days_back (config_for ("high".toList)) stats [r]).countP
        (fun rec => decide (rec.anomaly_kind = AnomalyType.NewObjectAccess)) = 1)
      ∧ ((detect_records now days_back (config_for ("low".toList)) stats [r]).countP
          (fun rec => decide (rec.anomaly_kind = AnomalyType.NewObjectAccess)) = 0) := by
  have hbucket : ∀ (cfg : Thresholds),
      (bucket_anomaly_records cfg.volume_multiplier stats).countP
        (fun rec => decide (rec.anomaly_kind = AnomalyType.NewObjectAccess))
      = 0 := by
    intro cfg
    apply List.countP_eq_zero.mpr
    intro rec hrec
    unfold bucket_anomaly_records at hrec
    rw [List.mem_map] at hrec
    obtain ⟨p, hp, rfl⟩ := hrec
    rw [List.mem_filter, List.mem_map] at hp
    obtain ⟨⟨x, _, rfl⟩, _⟩ := hp
    simp only [decide_eq_true_eq]
    exact anomaly_type_ne_new_object _ _ _
  have hcfg_high : config_for ("high".toList)
      = { hour_threshold := 8, volume_multiplier := 3,
          new_object_days := 7 } := by decide
  have hcfg_low : config_for ("low".toList)
      = { hour_threshold := 2, volume_multiplier := 10,
          new_object_days := 90 } := by decide
  constructor
  · unfold detect_records
    rw [List.countP_append, hbucket, Nat.zero_add]
    have hfilter : new_object_access now days_back
        (config_for ("high".toList)) [r] = [r] := by
      unfold new_object_access
      rw [hcfg_high]
      rw [List.filter_cons, if_pos]
      · rfl
      · simp only [Bool.and_eq_true, decide_eq_true_eq]
        refine ⟨⟨hwin, ?_⟩, ?_⟩
        · exact hnew
        · rw [htime]
          linarith
    unfold new_object_records
    rw [hfilter]
    simp [new_object_record]
  · unfold detect_records
    rw [List.countP_append, hbucket, Nat.zero_add]
    have hfilter : new_object_access now days_back
        (config_for ("low".toList)) [r] = [] := by
      unfold new_object_access
      rw [hcfg_low]
      rw [List.filter_cons, if_neg]
      · rfl
      · simp only [Bool.and_eq_true, decide_eq_true_eq]
        rintro ⟨-, hlt⟩
        rw [htime] at hlt
        exact absurd hlt (by linarith)
    unfold new_object_records
    rw [hfilter]
    rfl

/-- Witness for `C4_new_object_boundary`: dave's access two hours after
creation, with `now = 0` and a 7-day look-back. -/
theorem C4_witness :
    (daveRow.query_start_time = daveRow.object_created + 2
        ∧ (0 : ℚ) - 24 * 7 ≤ daveRow.query_start_time
        ∧ (0 : ℚ) - 24 * 7 ≤ daveRow.object_created)
      ∧ (((detect_records 0 7 (config_for ("high".toList)) [] [daveRow]).countP
            (fun rec => decide (rec.anomaly_kind = AnomalyType.NewObjectAccess)) = 1)
          ∧ ((detect_records 0 7 (config_for ("low".toList)) [] [daveRow]).countP
              (fun rec => decide (rec.anomaly_kind = AnomalyType.NewObjectAccess)) = 0)) := by
  have h1 : daveRow.query_start_time = daveRow.object_created + 2 := by
    norm_num [daveRow]
  have h2 : (0 : ℚ) - 24 * 7 ≤ daveRow.query_start_time := by
    norm_num [daveRow]
  have h3 : (0 : ℚ) - 24 * 7 ≤ daveRow.object_created := by
    norm_num [daveRow]
  exact ⟨⟨h1, h2, h3⟩, C4_new_object_boundary 0 7 [] daveRow h1 h2 h3⟩

/-- C7: any sensitivity token other than `low`, `medium`, `high` falls back
to exactly the `medium` parameter set (hour_threshold 4, volume_multiplier
5, new_object_days 30), so detection under an unrecognized token coincides
with detection under `medium`. -/
theorem C7_unrecognized_sensitivity_is_medium (s : List Char)
    (h1 : s ≠ "low".toList) (h2 : s ≠ "medium".toList)
    (h3 : s ≠ "high".toList) :
    config_for s = config_for ("medium".toList)
      ∧ config_for s
          = { hour_threshold := 4, volume_multiplier := 5,
              new_object_days := 30 }
      ∧ ∀ (now days_back : ℚ) (stats : List BucketRow)
          (accesses : List AccessRow),
          detect_records now days_back (config_for s) stats accesses
            = detect_records now days_back (config_for ("medium".toList))
                stats accesses := by
  have hc : config_for s
      = { hour_threshold := 4, volume_multiplier := 5,
          new_object_days := 30 } := by
    unfold config_for
    rw [if_neg h1, if_neg h2, if_neg h3]
  have hmed : config_for ("medium".toList)
      = { hour_threshold := 4, volume_multiplier := 5,
          new_object_days := 30 } := by decide
  refine ⟨?_, hc, ?_⟩
  · rw [hc, hmed]
  · intro now days_back stats accesses
    rw [hc, hmed]

/-- Witness for `C7_unrecognized_sensitivity_is_medium` at the token
`"EXTREME"`. -/
theorem C7_witness :
    ("EXTREME".toList ≠ "low".toList
        ∧ "EXTREME".toList ≠ "medium".toList
        ∧ "EXTREME".toList ≠ "high".toList)
      ∧ (config_for ("EXTREME".toList) = config_for ("medium".toList)
          ∧ config_for ("EXTREME".toList)
              = { hour_threshold := 4, volume_multiplier := 5,
                  new_object_days := 30 }
          ∧ ∀ (now days_back : ℚ) (stats : List BucketRow)
              (accesses : List AccessRow),
              detect_records now days_back (config_for ("EXTREME".toList))
                  stats accesses
                = detect_records now days_back
                    (config_for ("medium".toList)) stats accesses) :=
  ⟨⟨by decide, by decide, by decide⟩,
    C7_unrecognized_sensitivity_is_medium ("EXTREME".toList)
      (by decide) (by decide) (by decide)⟩

/-- C9: the pandas post-processing flags user `u` as high risk exactly when
the number of distinct anomaly kinds among `u`'s records is at least 3
(distinct kinds, not record count). -/
theorem C9_high_risk_iff_three_distinct_kinds
    (records : List AnomalyRecord) (u : List Char) :
    is_high_risk records u = true
      ↔ 3 ≤ ((records.filter fun r => decide (r.user_name = u)).map
            fun r => r.anomaly_kind).dedup.length := by
  unfold is_high_risk
  rw [decide_eq_true_eq]
  have himg : ((records.map fun r => (r.user_name, r.anomaly_kind)).toFinset.filter
        fun p => p.1 = u)
      = ((records.filter fun r => decide (r.user_name = u)).map
          fun r => r.anomaly_kind).toFinset.image fun t => (u, t) := by
    ext p
    obtain ⟨a, b⟩ := p
    simp only [Finset.mem_filter, List.mem_toFinset, List.mem_map,
      List.mem_filter, Finset.mem_image, decide_eq_true_eq, Prod.mk.injEq]
    constructor
    · rintro ⟨⟨r, hr, hra, hrb⟩, hau⟩
      exact ⟨b, ⟨r, ⟨hr, by rw [hra, hau]⟩, hrb⟩, hau.symm, rfl⟩
    · rintro ⟨t, ⟨r, ⟨hr, hru⟩, hrt⟩, hua, htb⟩
      exact ⟨⟨r, hr, by rw [hru, hua], by rw [hrt, htb]⟩, hua.symm⟩
  have hinj : Function.Injective (fun t : AnomalyType => (u, t)) := by
    intro a b hab
    simpa using congrArg Prod.snd hab
  have key : user_kind_group_count records u
      = ((records.filter fun r => decide (r.user_name = u)).map
          fun r => r.anomaly_kind).toFinset.card := by
    unfold user_kind_group_count user_anomaly_pairs
    rw [himg, Finset.card_image_of_injective _ hinj]
  rw [key, List.card_toFinset]

end SnowflakeMCP
